import Mathlib

/-
Shallow embedding of the SUTUTEH backend's OTP / registration / password-reset
handlers (consultas/registro.js and consultas/recuperarContrasena.js).

External collaborators are parameters:
  - jwt.sign({code}, SECRET, {noTimestamp:true})  ~  a function signF : String → String
  - bcrypt.hash (salt folded in)                  ~  bhashF : String → String
  - bcrypt.compare                                ~  compareF : String → String → Bool
  - crypto SHA-1 hex uppercase                    ~  sha1HexUpper : String → String
  - the axios GET to the HIBP range API           ~  Except Unit String (error = thrown)
  - MySQL NOW() / Date.now()                      ~  an Int timestamp in milliseconds
The database is a list of joined autenticacion_usuarios/perfil_usuarios rows.
JavaScript string primitives (toLowerCase, split, trim, substring) are
re-implemented by structural recursion over the character list so that every
definition computes by kernel reduction.
-/

namespace Sututeh

/-- JS s.toLowerCase() (ASCII case mapping, which covers the email inputs). -/
def jsToLower (s : String) : String :=
  String.mk (s.data.map Char.toLower)

/-- Accumulator pass of a single-character JS String.prototype.split. -/
def splitCharAux (sep : Char) : List Char → List Char → List String
  | [], acc => [String.mk acc.reverse]
  | c :: rest, acc =>
    if c == sep then String.mk acc.reverse :: splitCharAux sep rest []
    else splitCharAux sep rest (c :: acc)

/-- JS s.split(sep) for a one-character separator (the source only splits on
a newline and on a colon). -/
def splitChar (sep : Char) (s : String) : List String :=
  splitCharAux sep s.data []

/-- Whitespace class used by JS String.prototype.trim on the inputs at hand. -/
def jsWhitespace (c : Char) : Bool :=
  c == ' ' || c == '\t' || c == '\n' || c == '\r'

/-- JS s.trim(): strip whitespace from both ends. -/
def jsTrim (s : String) : String :=
  String.mk (((s.data.dropWhile jsWhitespace).reverse.dropWhile jsWhitespace).reverse)

/-- JS s.substring(n) (drop the first n characters). -/
def jsDrop (n : Nat) (s : String) : String :=
  String.mk (s.data.drop n)

/-- One row of autenticacion_usuarios joined with its perfil_usuarios row.
Nullable SQL columns are Option. Timestamps are milliseconds since epoch. -/
structure Identity where
  id : Nat
  correo_electronico : String
  fecha_nacimiento : String
  contrasena : Option String
  registro_completado : Nat
  verificado : Nat
  estatus : String
  codigo_verificacion : Option String
  fecha_codigo_verificacion : Option Int
  nombre : String
  apellido_paterno : String
  apellido_materno : String
  genero : String
  curp : String
  telefono : String
  universidad_id : Int
  puesto_id : Int
  programa_id : Option Int
  nivel_id : Int
  numero_trabajador : String
  rol_sindicato_id : Int
  antiguedad : Option String
  fecha_actualizacion : Option Int
  deriving Repr, DecidableEq

abbrev DB := List Identity

/-- JSON response of a handler: res.json with a message, or res.status(s).json
with an error string. -/
inductive Resp where
  | ok (message : String)
  | err (status : Nat) (error : String)
  deriving Repr, DecidableEq

/-- Observable outcome of one request: the response, the database afterwards,
and the (to, subject) pairs of emails handed to the notifier. -/
structure HandlerOut where
  resp : Resp
  db : DB
  emails : List (String × String)
  deriving Repr, DecidableEq

/-- Lookup predicate WHERE correo_electronico = ? (the argument is already
lower-cased by the caller, as in the source). -/
def byEmail (email : String) (u : Identity) : Bool :=
  u.correo_electronico == email

/-- JS: new Date(x).getTime() where x is the fecha_codigo_verificacion column;
a SQL NULL arrives as null and new Date(null).getTime() = 0 (the epoch). -/
def jsGetTime : Option Int → Int
  | none => 0
  | some t => t

/-- JS falsiness of the codigo_verificacion column (!user.codigo_verificacion):
NULL and the empty string are falsy. -/
def codigoFalsy : Option String → Bool
  | none => true
  | some s => s == ""

/-- JS parseInt(s, 10) on an already-trimmed string: optional sign, then a
maximal run of leading decimal digits; none models NaN. -/
def jsParseInt (s : String) : Option Int :=
  let signAndRest : Int × List Char :=
    match s.data with
    | '-' :: r => (-1, r)
    | '+' :: r => (1, r)
    | r => (1, r)
  let ds := signAndRest.2.takeWhile Char.isDigit
  if ds.isEmpty then none
  else some (signAndRest.1 * (ds.foldl (fun a c => a * 10 + ((c.toNat - 48 : Nat) : Int)) (0 : Int)))

/-- Scan of the HIBP response lines, translated from the for-loop of
isPasswordPwned: split each line at ":", trim the first part, and on the FIRST
line whose first part equals the digest suffix return whether its count parses
to a positive integer (a missing ":" part throws in JS and the surrounding
catch returns false; NaN > 0 is also false). -/
def scanLines (sfx : String) : List String → Bool
  | [] => false
  | line :: rest =>
    if jsTrim ((splitChar ':' line).headD "") == sfx then
      match (splitChar ':' line)[1]? with
      | none => false
      | some c =>
        match jsParseInt (jsTrim c) with
        | none => false
        | some n => decide (0 < n)
    else scanLines sfx rest

/-- Body handling of isPasswordPwned: response.data.split("\n") then the line
scan against the digest suffix. -/
def pwnedFromBody (sfx : String) (body : String) : Bool :=
  scanLines sfx (splitChar '\n' body)

/-- isPasswordPwned from consultas/registro.js: uppercase SHA-1 hex of the
password, first 5 hex chars go into the range URL, the remaining 35 are the
suffix compared against the response lines; a thrown request error is caught
and the function returns false. -/
def isPasswordPwned (sha1HexUpper : String → String)
    (apiResponse : Except Unit String) (password : String) : Bool :=
  match apiResponse with
  | .error _ => false
  | .ok data => pwnedFromBody (jsDrop 5 (sha1HexUpper password)) data

/-- The minute-window test of the recovery handlers, kept in the source's
form (now - codeDate) / (1000 * 60) > m over exact arithmetic. -/
def minutesOver (now codeDate : Int) (m : Nat) : Prop :=
  ((now - codeDate : Int) : ℚ) / (1000 * 60) > (m : ℚ)

/-- The division form is equivalent to a millisecond comparison. -/
theorem minutesOver_iff (now codeDate : Int) (m : Nat) :
    minutesOver now codeDate m ↔ 60000 * (m : Int) < now - codeDate := by
  unfold minutesOver
  rw [gt_iff_lt, lt_div_iff₀ (by norm_num : (0 : ℚ) < 1000 * 60)]
  have h60 : ((m : ℚ) * (1000 * 60)) = ((60000 * (m : ℤ) : ℤ) : ℚ) := by
    push_cast
    ring
  rw [h60, Int.cast_lt]

instance instDecidableMinutesOver (now codeDate : Int) (m : Nat) :
    Decidable (minutesOver now codeDate m) :=
  decidable_of_iff _ (minutesOver_iff now codeDate m).symm

/-- Row update of step 6 of POST /enviarCodigo: store the hashed token and
stamp fecha_codigo_verificacion with NOW(). -/
def otpUpdate (hashedToken : String) (now : Int) (v : Identity) : Identity :=
  { v with codigo_verificacion := some hashedToken,
           fecha_codigo_verificacion := some now }

/-- Row update of step 4 of POST /validarCodigo: mark as verified. -/
def verifiedUpdate (v : Identity) : Identity :=
  { v with verificado := 1 }

/-- Row update of step 3 of POST /actualizarUsuario: store the password hash
and complete the registration. -/
def authUpdate (hashedPassword : String) (v : Identity) : Identity :=
  { v with contrasena := some hashedPassword, registro_completado := 1 }

/-- POST /enviarCodigo from consultas/registro.js (post-validation body).
Looks up the preregistered user by (email lower-cased, birthdate); 404 with no
write when absent; 400 when registro_completado = 1; otherwise hashes the
signed token of the freshly drawn code, stores it with NOW(), and sends the
email to the raw input address. The random 6-digit code is the parameter. -/
def enviarCodigo (signF bhashF : String → String) (db : DB) (now : Int)
    (correo_electronico fecha_nacimiento code : String) : HandlerOut :=
  match db.filter (fun u =>
      u.correo_electronico == jsToLower correo_electronico &&
      u.fecha_nacimiento == fecha_nacimiento) with
  | [] => ⟨.err 404 "Usuario no encontrado", db, []⟩
  | u :: _ =>
    if u.registro_completado == 1 then
      ⟨.err 400 "Usuario ya registrado", db, []⟩
    else
      ⟨.ok "Código de verificación enviado exitosamente.",
        db.map (fun v =>
          if v.id == u.id then otpUpdate (bhashF (signF code)) now v else v),
        [(correo_electronico, "Tu código de verificación (SUTUTEH)")]⟩

/-- POST /validarCodigo from consultas/registro.js (post-validation body).
Finds the user by email; the 10-minute expiry check on
Date.now() - new Date(fecha_codigo_verificacion).getTime() runs BEFORE the
bcrypt comparison and has no NULL guard (a NULL timestamp reads as the epoch);
on a match it sets verificado = 1 and leaves the challenge columns untouched.
A NULL stored hash makes bcrypt.compare reject, caught as the 500 branch. -/
def validarCodigo (signF : String → String) (compareF : String → String → Bool)
    (db : DB) (now : Int) (correo_electronico codigo : String) : HandlerOut :=
  match db.find? (byEmail (jsToLower correo_electronico)) with
  | none => ⟨.err 404 "Usuario no encontrado", db, []⟩
  | some user =>
    if now - jsGetTime user.fecha_codigo_verificacion > 10 * 60 * 1000 then
      ⟨.err 400 "El código ha expirado", db, []⟩
    else
      match user.codigo_verificacion with
      | none => ⟨.err 500 "Error interno al validar el código.", db, []⟩
      | some hashToken =>
        if compareF (signF codigo) hashToken then
          ⟨.ok "Código verificado correctamente.",
            db.map (fun v => if v.id == user.id then verifiedUpdate v else v),
            []⟩
        else ⟨.err 400 "Código incorrecto", db, []⟩

/-- Request body of POST /actualizarUsuario after express-validator. -/
structure PerfilReq where
  correo_electronico : String
  password : String
  firstName : String
  lastName : String
  maternalLastName : String
  gender : String
  curp : String
  phone : String
  universityOrigin : Int
  universityPosition : Int
  educationalProgram : Option Int
  workerNumber : String
  educationalLevel : Int
  antiguedad : Option String
  deriving Repr, DecidableEq

/-- JS x || null on an optional integer field: 0 (falsy) becomes null. -/
def jsOrNullInt : Option Int → Option Int
  | some v => if v == 0 then none else some v
  | none => none

/-- JS x || null on an optional string field: the empty string becomes null. -/
def jsOrNullStr : Option String → Option String
  | some s => if s == "" then none else some s
  | none => none

/-- Profile-row update of POST /actualizarUsuario (the second UPDATE). -/
def perfilUpdate (req : PerfilReq) (v : Identity) : Identity :=
  { v with nombre := req.firstName,
           apellido_paterno := req.lastName,
           apellido_materno := req.maternalLastName,
           genero := req.gender,
           curp := req.curp,
           telefono := req.phone,
           universidad_id := req.universityOrigin,
           puesto_id := req.universityPosition,
           programa_id := jsOrNullInt req.educationalProgram,
           nivel_id := req.educationalLevel,
           numero_trabajador := req.workerNumber,
           rol_sindicato_id := 1,
           antiguedad := jsOrNullStr req.antiguedad }

/-- POST /actualizarUsuario from consultas/registro.js (post-validation body).
Finds the user by email only; hashes the password, sets contrasena and
registro_completado = 1 (first UPDATE), then writes the profile row with
rol_sindicato_id = 1 (second UPDATE). It reads neither verificado nor the
challenge columns nor the prior registro_completado. -/
def actualizarUsuario (bhashF : String → String) (db : DB) (req : PerfilReq) :
    HandlerOut :=
  match db.find? (byEmail (jsToLower req.correo_electronico)) with
  | none => ⟨.err 404 "Usuario no encontrado", db, []⟩
  | some user =>
    ⟨.ok "Usuario actualizado y registro completado.",
      (db.map (fun v =>
        if v.id == user.id then authUpdate (bhashF req.password) v else v)).map (fun v =>
          if v.id == user.id then perfilUpdate req v else v),
      []⟩

/-- POST /verificarCodigo from consultas/recuperarContrasena.js
(post-validation body). Pure read: 404 when the email is unknown, 400 when no
challenge is stored (JS falsiness of the columns), expiry via
(now - codeDate) / (1000 * 60) > 10 in exact arithmetic, then the bcrypt
comparison; no branch writes to the database. -/
def verificarCodigo (signF : String → String) (compareF : String → String → Bool)
    (db : DB) (now : Int) (email codigo : String) : HandlerOut :=
  match db.find? (byEmail (jsToLower email)) with
  | none => ⟨.err 404 "Usuario no encontrado.", db, []⟩
  | some user =>
    if codigoFalsy user.codigo_verificacion || user.fecha_codigo_verificacion == none then
      ⟨.err 400 "No se ha solicitado recuperación de contraseña para este usuario.", db, []⟩
    else
      match user.codigo_verificacion, user.fecha_codigo_verificacion with
      | some hashToken, some codeDate =>
        if minutesOver now codeDate 10 then
          ⟨.err 400 "El código ha expirado. Solicite uno nuevo.", db, []⟩
        else if compareF (signF codigo) hashToken then
          ⟨.ok "Código verificado correctamente. Puede proceder a cambiar su contraseña.", db, []⟩
        else ⟨.err 400 "Código incorrecto. Verifique e intente nuevamente.", db, []⟩
      | _, _ =>
        ⟨.err 400 "No se ha solicitado recuperación de contraseña para este usuario.", db, []⟩

/-- Character class [@$!%*?&] of the password strength regex. -/
def specialChar (c : Char) : Bool :=
  c == '@' || c == '$' || c == '!' || c == '%' || c == '*' || c == '?' || c == '&'

/-- Character class [A-Za-z\d@$!%*?&] of the password strength regex. -/
def allowedChar (c : Char) : Bool :=
  c.isUpper || c.isLower || c.isDigit || specialChar c

/-- The test of /^(?=.*[a-z])(?=.*[A-Z])(?=.*\d)(?=.*[@$!%*?&])[A-Za-z\d@$!%*?&]\x7b8,\x7d$/:
some lowercase, some uppercase, some digit, some special, and the whole string
is at least 8 characters all drawn from the allowed class. -/
def passwordRegexTest (s : String) : Bool :=
  s.data.any Char.isLower && s.data.any Char.isUpper &&
  s.data.any Char.isDigit && s.data.any specialChar &&
  s.data.all allowedChar && decide (8 ≤ s.data.length)

/-- The success row update of POST /actualizarContrasena: store the new hash,
clear both challenge columns, stamp fecha_actualizacion. -/
def resetUpdate (hashedPassword : String) (now : Int) (v : Identity) : Identity :=
  { v with contrasena := some hashedPassword,
           codigo_verificacion := none,
           fecha_codigo_verificacion := none,
           fecha_actualizacion := some now }

/-- POST /actualizarContrasena from consultas/recuperarContrasena.js
(post-validation body). Guard order as in the source: confirmation match,
strength regex, breach check (isCompromised is the awaited isPasswordPwned
result), user lookup by email, presence of both challenge columns, then the
15-minute window (now - codeDate) / (1000 * 60) > 15; on success stores the
new bcrypt hash, clears both challenge columns and stamps
fecha_actualizacion. -/
def actualizarContrasena (bhashF : String → String) (isCompromised : Bool)
    (db : DB) (now : Int) (email password confirmPassword : String) : HandlerOut :=
  if password != confirmPassword then
    ⟨.err 400 "Las contraseñas no coinciden.", db, []⟩
  else if !passwordRegexTest password then
    ⟨.err 400 "La contraseña debe tener al menos 8 caracteres, incluir mayúsculas, minúsculas, números y caracteres especiales.", db, []⟩
  else if isCompromised then
    ⟨.err 400 "Esta contraseña ha sido comprometida en filtraciones de datos. Por favor, elija una contraseña diferente.", db, []⟩
  else
    match db.find? (byEmail (jsToLower email)) with
    | none => ⟨.err 404 "Usuario no encontrado.", db, []⟩
    | some user =>
      if codigoFalsy user.codigo_verificacion || user.fecha_codigo_verificacion == none then
        ⟨.err 400 "Debe verificar el código de recuperación antes de cambiar la contraseña.", db, []⟩
      else
        match user.fecha_codigo_verificacion with
        | none =>
          ⟨.err 400 "Debe verificar el código de recuperación antes de cambiar la contraseña.", db, []⟩
        | some codeDate =>
          if minutesOver now codeDate 15 then
            ⟨.err 400 "El proceso de recuperación ha expirado. Inicie nuevamente.", db, []⟩
          else
            ⟨.ok "Contraseña actualizada exitosamente. Ya puede iniciar sesión con su nueva contraseña.",
              db.map (fun v =>
                if v.id == user.id then resetUpdate (bhashF password) now v else v),
              []⟩

/-- Does a response line's pre-colon field, trimmed, equal the digest suffix. -/
def lineMatches (sfx line : String) : Bool :=
  jsTrim ((splitChar ':' line).headD "") == sfx

/-- Does a response line's post-colon field parse to a positive count
(false when the field is missing or does not parse). -/
def lineCountPos (line : String) : Bool :=
  match (splitChar ':' line)[1]? with
  | none => false
  | some c =>
    match jsParseInt (jsTrim c) with
    | none => false
    | some n => decide (0 < n)

/-- Modelled from the spec's words, for comparison with pwnedFromBody: the
FIRST line whose pre-colon field matches the suffix decides the result. -/
def pwnedSpecFirstMatch (sfx body : String) : Bool :=
  match (splitChar '\n' body).find? (lineMatches sfx) with
  | none => false
  | some line => lineCountPos line

/-- Concrete jwt.sign stand-in for witnesses: tag the code. -/
def signToy (c : String) : String := "T" ++ c

/-- Concrete bcrypt.hash stand-in for witnesses (identity is a legal
instantiation of the collaborator contract). -/
def bhashToy (s : String) : String := s

/-- Concrete bcrypt.compare stand-in matching bhashToy. -/
def compareToy (c hs : String) : Bool := c == hs

/-- Concrete SHA-1 stand-in whose digests all have suffix AAAA. -/
def sha1Toy : String → String := fun _ => "00000AAAA"

/-- Base concrete identity row for witnesses and counterexamples. -/
def u0 : Identity :=
  { id := 1, correo_electronico := "a@b.com", fecha_nacimiento := "2000-01-01",
    contrasena := none, registro_completado := 0, verificado := 0,
    estatus := "Activo", codigo_verificacion := none,
    fecha_codigo_verificacion := none, nombre := "", apellido_paterno := "",
    apellido_materno := "", genero := "", curp := "", telefono := "",
    universidad_id := 0, puesto_id := 0, programa_id := none, nivel_id := 0,
    numero_trabajador := "", rol_sindicato_id := 0, antiguedad := none,
    fecha_actualizacion := none }

/-- Identity holding the challenge for the registration code 123456 issued at
the epoch, hashed with the toy collaborators. -/
def uChal : Identity :=
  { u0 with codigo_verificacion := some (bhashToy (signToy "123456")),
            fecha_codigo_verificacion := some 0 }

/-- Identity mid password-reset: some stored challenge hash issued at the
epoch. -/
def uReset : Identity :=
  { u0 with registro_completado := 1,
            codigo_verificacion := some "X",
            fecha_codigo_verificacion := some 0 }

/-- Concrete validated request body for witnesses. -/
def req0 : PerfilReq :=
  { correo_electronico := "a@b.com", password := "Abcdef1!", firstName := "Ana",
    lastName := "Perez", maternalLastName := "Lopez", gender := "Femenino",
    curp := "ABCD123456EFGHIJKL", phone := "1234567890", universityOrigin := 2,
    universityPosition := 3, educationalProgram := some 4, workerNumber := "W1",
    educationalLevel := 5, antiguedad := some "2020-01-01" }

section Helpers

/-- find? commutes with a map that does not change the predicate's verdict on
any row (the row updates only touch columns other than the lookup key). -/
theorem find?_map_pres {g : Identity → Identity} {p : Identity → Bool}
    (h : ∀ v, p (g v) = p v) (l : DB) :
    (l.map g).find? p = (l.find? p).map g := by
  rw [List.find?_map]
  have hpg : p ∘ g = p := funext h
  rw [hpg]

/-- Specialisation: the row updates of the handlers touch no lookup key, so
find? by email passes through the per-id map. -/
theorem find?_byEmail_map_ite (e : String) (uid : Nat) (f : Identity → Identity)
    (hf : ∀ w, (f w).correo_electronico = w.correo_electronico) (l : DB) :
    (l.map (fun v => if v.id == uid then f v else v)).find? (byEmail e) =
      (l.find? (byEmail e)).map (fun v => if v.id == uid then f v else v) := by
  apply find?_map_pres
  intro v
  by_cases h : (v.id == uid) = true <;> simp [byEmail, h, hf]

/-- The line scan returns the verdict of the first matching line. -/
theorem scanLines_eq_firstMatch (sfx : String) (l : List String) :
    scanLines sfx l =
      match l.find? (lineMatches sfx) with
      | none => false
      | some line => lineCountPos line := by
  induction l with
  | nil => rfl
  | cons line rest ih =>
    by_cases h : lineMatches sfx line
    · simp only [scanLines, List.find?_cons, h]
      simp only [lineMatches] at h
      rw [if_pos h]
      rfl
    · simp only [scanLines, List.find?_cons, h]
      simp only [lineMatches] at h
      rw [if_neg h]
      simpa using ih

end Helpers

/-- C6: the breach checker is fail-open — for every password (and every digest
function), if the request to the breach range API throws, isPasswordPwned
returns false instead of propagating the error. -/
theorem c6_fail_open (sha1HexUpper : String → String) (password : String) :
    isPasswordPwned sha1HexUpper (Except.error ()) password = false := rfl

/-- C7 counterexample: for the response body with a first matching line of
count 0 and a second line with the same suffix and count 5, the digest suffix
does appear in a line with count strictly greater than 0, yet isPasswordPwned
returns false — refuting the claimed exact characterization. -/
theorem c7_counterexample :
    isPasswordPwned sha1Toy (Except.ok "AAAA:0\nAAAA:5") "pw" = false ∧
    ((splitChar '\n' "AAAA:0\nAAAA:5").any
        (fun line => lineMatches (jsDrop 5 (sha1Toy "pw")) line &&
          lineCountPos line)) = true := by
  exact ⟨by decide, by decide⟩

/-- C7 (amended): for every password and every successful response body,
isPasswordPwned returns the verdict of the FIRST line whose pre-colon field,
trimmed, equals the password's digest suffix — true exactly when that line's
count parses to an integer strictly greater than 0, and false when that
line's count is 0 or unparsable, or when no line matches the suffix. -/
theorem c7_first_match_decides (sha1HexUpper : String → String)
    (apiBody password : String) :
    isPasswordPwned sha1HexUpper (Except.ok apiBody) password =
      pwnedSpecFirstMatch (jsDrop 5 (sha1HexUpper password)) apiBody := by
  unfold isPasswordPwned pwnedFromBody pwnedSpecFirstMatch
  exact scanLines_eq_firstMatch _ _

/-- C8: a validated registration send-code request whose (email, birthdate)
pair matches no stored identity gets a 404 and the handler performs no write
at all: the database is returned unchanged and no email is sent. -/
theorem c8_not_found_no_write (signF bhashF : String → String) (db : DB)
    (now : Int) (correo fecha code : String)
    (h : db.filter (fun u => u.correo_electronico == jsToLower correo &&
          u.fecha_nacimiento == fecha) = []) :
    enviarCodigo signF bhashF db now correo fecha code =
      ⟨Resp.err 404 "Usuario no encontrado", db, []⟩ := by
  unfold enviarCodigo
  rw [h]

/-- C8 witness: birthdate mismatch on the concrete one-row database. -/
theorem c8_witness :
    enviarCodigo signToy bhashToy [u0] 0 "a@b.com" "1999-12-31" "111111" =
      ⟨Resp.err 404 "Usuario no encontrado", [u0], []⟩ :=
  c8_not_found_no_write signToy bhashToy [u0] 0 "a@b.com" "1999-12-31" "111111"
    (by decide)

/-- C9: the password-reset verify endpoint verificarCodigo is a pure read —
for every database, clock, email and submitted code, whatever the outcome, the
database afterwards is exactly the database before, and no email is sent. -/
theorem c9_pure_read (signF : String → String)
    (compareF : String → String → Bool) (db : DB) (now : Int)
    (email codigo : String) :
    (verificarCodigo signF compareF db now email codigo).db = db ∧
    (verificarCodigo signF compareF db now email codigo).emails = [] := by
  unfold verificarCodigo
  cases db.find? (byEmail (jsToLower email)) with
  | none => exact ⟨rfl, rfl⟩
  | some user =>
    dsimp only
    split
    · exact ⟨rfl, rfl⟩
    · split
      · split
        · exact ⟨rfl, rfl⟩
        · split
          · exact ⟨rfl, rfl⟩
          · exact ⟨rfl, rfl⟩
      · exact ⟨rfl, rfl⟩

/-- C10: for an existing identity whose fecha_codigo_verificacion is NULL,
validarCodigo answers with the 400 expired response (not a NotFound or a
missing-challenge error), because new Date(null).getTime() is the epoch and
any clock beyond the 10-minute TTL past the epoch exceeds the window. -/
theorem c10_null_timestamp_expired (signF : String → String)
    (compareF : String → String → Bool) (db : DB) (now : Int)
    (correo codigo : String) (u : Identity)
    (hfind : db.find? (byEmail (jsToLower correo)) = some u)
    (hnone : u.fecha_codigo_verificacion = none)
    (hnow : 600000 < now) :
    (validarCodigo signF compareF db now correo codigo).resp =
      Resp.err 400 "El código ha expirado" := by
  unfold validarCodigo
  rw [hfind]
  dsimp only
  rw [hnone]
  dsimp only [jsGetTime]
  rw [if_pos (by omega)]

/-- C10 witness: the concrete identity with no stored timestamp, eleven
minutes and forty seconds past the epoch. -/
theorem c10_witness :
    (validarCodigo signToy compareToy [u0] 700000 "a@b.com" "123456").resp =
      Resp.err 400 "El código ha expirado" :=
  c10_null_timestamp_expired signToy compareToy [u0] 700000 "a@b.com" "123456"
    u0 (by decide) rfl (by decide)

/-- C1 counterexample: a registration code accepted once by validarCodigo
verifies again on an identical second submission within the TTL, and the
stored challenge hash and its timestamp survive the first acceptance — the
registration half of the single-use claim fails. -/
theorem c1_counterexample :
    (validarCodigo signToy compareToy [uChal] 5000 "a@b.com" "123456").resp =
      Resp.ok "Código verificado correctamente." ∧
    (validarCodigo signToy compareToy
        (validarCodigo signToy compareToy [uChal] 5000 "a@b.com" "123456").db
        5000 "a@b.com" "123456").resp =
      Resp.ok "Código verificado correctamente." ∧
    ((validarCodigo signToy compareToy [uChal] 5000 "a@b.com" "123456").db.map
        (fun v => (v.codigo_verificacion, v.fecha_codigo_verificacion))) =
      [(some "T123456", some 0)] := by
  exact ⟨by decide, by decide, by decide⟩

/-- C1 (amended): single use holds only for the password-reset completion —
a successful actualizarContrasena clears codigo_verificacion and
fecha_codigo_verificacion and an identical second request then fails with the
400 must-verify error; validarCodigo never changes either challenge column on
any row, so an already-accepted registration code verifies again within its
TTL. -/
theorem c1_single_use_amended :
    (∀ (bhashF : String → String) (isCompromised : Bool) (db : DB) (now : Int)
        (email password confirmPassword : String),
      (actualizarContrasena bhashF isCompromised db now email password confirmPassword).resp =
          Resp.ok "Contraseña actualizada exitosamente. Ya puede iniciar sesión con su nueva contraseña." →
        ((actualizarContrasena bhashF isCompromised db now email password confirmPassword).db.find?
            (byEmail (jsToLower email))).map
            (fun v => (v.codigo_verificacion, v.fecha_codigo_verificacion)) =
          some (none, none) ∧
        (actualizarContrasena bhashF isCompromised
            (actualizarContrasena bhashF isCompromised db now email password confirmPassword).db
            now email password confirmPassword).resp =
          Resp.err 400 "Debe verificar el código de recuperación antes de cambiar la contraseña.")
    ∧ (∀ (signF : String → String) (compareF : String → String → Bool)
        (db : DB) (now : Int) (correo codigo : String),
      (validarCodigo signF compareF db now correo codigo).db.map
          (fun v => (v.codigo_verificacion, v.fecha_codigo_verificacion)) =
        db.map (fun v => (v.codigo_verificacion, v.fecha_codigo_verificacion))) := by
  constructor
  · intro bhashF isCompromised db now email password confirmPassword hok
    unfold actualizarContrasena at hok
    by_cases h1 : (password != confirmPassword) = true
    · rw [if_pos h1] at hok
      simp at hok
    rw [if_neg h1] at hok
    by_cases h2 : (!passwordRegexTest password) = true
    · rw [if_pos h2] at hok
      simp at hok
    rw [if_neg h2] at hok
    by_cases h3 : isCompromised = true
    · rw [if_pos h3] at hok
      simp at hok
    rw [if_neg h3] at hok
    cases hf : db.find? (byEmail (jsToLower email)) with
    | none =>
      rw [hf] at hok
      simp at hok
    | some user =>
      rw [hf] at hok
      dsimp only at hok
      by_cases h4 : (codigoFalsy user.codigo_verificacion ||
          (user.fecha_codigo_verificacion == none)) = true
      · rw [if_pos h4] at hok
        simp at hok
      rw [if_neg h4] at hok
      cases hfc : user.fecha_codigo_verificacion with
      | none =>
        rw [hfc] at h4
        simp at h4
      | some codeDate =>
        rw [hfc] at hok
        dsimp only at hok
        by_cases h5 : minutesOver now codeDate 15
        · rw [if_pos h5] at hok
          simp at hok
        rw [if_neg h5] at hok
        unfold actualizarContrasena
        rw [if_neg h1, if_neg h2, if_neg h3, hf]
        dsimp only
        rw [if_neg h4, hfc]
        dsimp only
        rw [if_neg h5]
        dsimp only
        constructor
        · rw [find?_byEmail_map_ite (jsToLower email) user.id
            (resetUpdate (bhashF password) now) (fun w => rfl) db, hf]
          simp [resetUpdate]
        · rw [if_neg h1, if_neg h2, if_neg h3]
          rw [find?_byEmail_map_ite (jsToLower email) user.id
            (resetUpdate (bhashF password) now) (fun w => rfl) db, hf]
          simp [resetUpdate, codigoFalsy]
  · intro signF compareF db now correo codigo
    unfold validarCodigo
    cases hf : db.find? (byEmail (jsToLower correo)) with
    | none => rfl
    | some user =>
      dsimp only
      split
      · rfl
      · cases hc : user.codigo_verificacion with
        | none => rfl
        | some hashToken =>
          dsimp only
          split
          · dsimp only
            rw [List.map_map]
            have hproj :
                ((fun v : Identity => (v.codigo_verificacion, v.fecha_codigo_verificacion)) ∘
                  (fun v => if v.id == user.id then verifiedUpdate v else v)) =
                (fun v : Identity => (v.codigo_verificacion, v.fecha_codigo_verificacion)) := by
              funext v
              by_cases h : v.id = user.id <;> simp [h, verifiedUpdate]
            rw [hproj]
          · rfl

/-- C1 witness: the concrete reset flow — the first password change succeeds
and clears the challenge, the identical second request fails. -/
theorem c1_witness :
    ((actualizarContrasena bhashToy false [uReset] 0 "a@b.com" "Abcdef1!" "Abcdef1!").db.find?
        (byEmail (jsToLower "a@b.com"))).map
        (fun v => (v.codigo_verificacion, v.fecha_codigo_verificacion)) =
      some (none, none) ∧
    (actualizarContrasena bhashToy false
        (actualizarContrasena bhashToy false [uReset] 0 "a@b.com" "Abcdef1!" "Abcdef1!").db
        0 "a@b.com" "Abcdef1!" "Abcdef1!").resp =
      Resp.err 400 "Debe verificar el código de recuperación antes de cambiar la contraseña." :=
  c1_single_use_amended.1 bhashToy false [uReset] 0 "a@b.com" "Abcdef1!" "Abcdef1!"
    (by decide)

/-- C2: for every database and every validated request whose email matches an
existing identity — whatever that identity's verificado flag, challenge
columns or prior registro_completado — actualizarUsuario answers 200, and the
identity's row afterwards is the profile update applied on top of the
password-hash-and-registro_completado=1 update. -/
theorem c2_complete_regardless (bhashF : String → String) (db : DB)
    (req : PerfilReq) (u : Identity)
    (hfind : db.find? (byEmail (jsToLower req.correo_electronico)) = some u) :
    (actualizarUsuario bhashF db req).resp =
      Resp.ok "Usuario actualizado y registro completado." ∧
    (actualizarUsuario bhashF db req).db.find?
        (byEmail (jsToLower req.correo_electronico)) =
      some (perfilUpdate req (authUpdate (bhashF req.password) u)) := by
  unfold actualizarUsuario
  rw [hfind]
  dsimp only
  refine ⟨rfl, ?_⟩
  rw [find?_byEmail_map_ite (jsToLower req.correo_electronico) u.id
    (perfilUpdate req) (fun w => rfl)]
  rw [find?_byEmail_map_ite (jsToLower req.correo_electronico) u.id
    (authUpdate (bhashF req.password)) (fun w => rfl) db]
  rw [hfind]
  simp [authUpdate, perfilUpdate]

/-- C2 witness: the identity with registro_completado already 1, verificado
still 0 and a live challenge is overwritten all the same. -/
theorem c2_witness :
    (actualizarUsuario bhashToy [uReset] req0).resp =
      Resp.ok "Usuario actualizado y registro completado." ∧
    (actualizarUsuario bhashToy [uReset] req0).db.find?
        (byEmail (jsToLower req0.correo_electronico)) =
      some (perfilUpdate req0 (authUpdate (bhashToy req0.password) uReset)) :=
  c2_complete_regardless bhashToy [uReset] req0 uReset (by decide)

/-- C3: in both verify handlers the expiry check runs before the hash
comparison and the 10-minute boundary is strict — past the TTL the expired
response comes back whatever code was submitted, while at elapsed time exactly
equal to the TTL the expired response is impossible. -/
theorem c3_expiry_strict (signF : String → String)
    (compareF : String → String → Bool) (db : DB) (now : Int)
    (correo codigo : String) (u : Identity) (t : Int)
    (hfind : db.find? (byEmail (jsToLower correo)) = some u)
    (ht : u.fecha_codigo_verificacion = some t) :
    (600000 < now - t →
      (validarCodigo signF compareF db now correo codigo).resp =
        Resp.err 400 "El código ha expirado")
    ∧ (now - t = 600000 →
      (validarCodigo signF compareF db now correo codigo).resp ≠
        Resp.err 400 "El código ha expirado")
    ∧ (codigoFalsy u.codigo_verificacion = false → 600000 < now - t →
      (verificarCodigo signF compareF db now correo codigo).resp =
        Resp.err 400 "El código ha expirado. Solicite uno nuevo.")
    ∧ (codigoFalsy u.codigo_verificacion = false → now - t = 600000 →
      (verificarCodigo signF compareF db now correo codigo).resp ≠
        Resp.err 400 "El código ha expirado. Solicite uno nuevo.") := by
  refine ⟨?_, ?_, ?_, ?_⟩
  · intro hb
    unfold validarCodigo
    rw [hfind]
    dsimp only
    rw [ht]
    dsimp only [jsGetTime]
    rw [if_pos (by omega)]
  · intro hb
    unfold validarCodigo
    rw [hfind]
    dsimp only
    rw [ht]
    dsimp only [jsGetTime]
    rw [if_neg (by omega)]
    cases hc : u.codigo_verificacion with
    | none => simp
    | some hashToken =>
      dsimp only
      split
      · simp
      · simp
  · intro hcf hb
    unfold verificarCodigo
    rw [hfind]
    dsimp only
    rw [if_neg (by simp [hcf, ht])]
    cases hc : u.codigo_verificacion with
    | none =>
      rw [hc] at hcf
      simp [codigoFalsy] at hcf
    | some hashToken =>
      rw [ht]
      dsimp only
      rw [if_pos ((minutesOver_iff now t 10).mpr (by push_cast; omega))]
  · intro hcf hb
    unfold verificarCodigo
    rw [hfind]
    dsimp only
    rw [if_neg (by simp [hcf, ht])]
    cases hc : u.codigo_verificacion with
    | none =>
      rw [hc] at hcf
      simp [codigoFalsy] at hcf
    | some hashToken =>
      rw [ht]
      dsimp only
      rw [if_neg (fun hm => by
        have hms := (minutesOver_iff now t 10).mp hm
        push_cast at hms
        omega)]
      split
      · simp
      · simp

/-- C3 witness: one millisecond past the TTL the registration verify expires;
at exactly the TTL the reset verify does not report expiry. -/
theorem c3_witness :
    (validarCodigo signToy compareToy [uChal] 600001 "a@b.com" "123456").resp =
      Resp.err 400 "El código ha expirado" ∧
    (verificarCodigo signToy compareToy [uChal] 600000 "a@b.com" "123456").resp ≠
      Resp.err 400 "El código ha expirado. Solicite uno nuevo." :=
  ⟨(c3_expiry_strict signToy compareToy [uChal] 600001 "a@b.com" "123456" uChal 0
      (by decide) rfl).1 (by decide),
   (c3_expiry_strict signToy compareToy [uChal] 600000 "a@b.com" "123456" uChal 0
      (by decide) rfl).2.2.2 (by decide) (by decide)⟩

/-- C4: issuing a fresh code overwrites the stored challenge, so a different
previously issued code fails the bcrypt comparison with the 400 mismatch
response even inside the time window — only the latest stored hash is
compared. The hypotheses state the bcrypt/jwt collaborator contract: distinct
tokens never compare true against the other's hash. -/
theorem c4_overwrite_invalidates (signF bhashF : String → String)
    (compareF : String → String → Bool) (db : DB) (now1 now2 : Int)
    (correo fecha code1 code2 : String) (u w : Identity) (rest : DB)
    (hfil : db.filter (fun v => v.correo_electronico == jsToLower correo &&
        v.fecha_nacimiento == fecha) = u :: rest)
    (hreg : (u.registro_completado == 1) = false)
    (hfind : db.find? (byEmail (jsToLower correo)) = some w)
    (hid : w.id = u.id)
    (httl : now2 - now1 ≤ 600000)
    (hne : signF code1 ≠ signF code2)
    (hcmp : ∀ a b, a ≠ b → compareF a (bhashF b) = false) :
    (validarCodigo signF compareF
        (enviarCodigo signF bhashF db now1 correo fecha code2).db
        now2 correo code1).resp = Resp.err 400 "Código incorrecto" := by
  unfold enviarCodigo
  rw [hfil]
  dsimp only
  rw [if_neg (by simp [hreg])]
  unfold validarCodigo
  dsimp only
  rw [find?_byEmail_map_ite (jsToLower correo) u.id
    (otpUpdate (bhashF (signF code2)) now1) (fun v => rfl) db]
  rw [hfind]
  dsimp only [Option.map]
  rw [hid]
  simp only [beq_self_eq_true, if_true]
  dsimp only [otpUpdate, jsGetTime]
  rw [if_neg (by omega)]
  rw [hcmp _ _ hne]
  simp

/-- C4 witness: code 111111 issued first in spirit, then 222222 stored by the
second send; 111111 no longer verifies one hundred milliseconds later. -/
theorem c4_witness :
    (validarCodigo signToy compareToy
        (enviarCodigo signToy bhashToy [u0] 100 "a@b.com" "2000-01-01" "222222").db
        200 "a@b.com" "111111").resp = Resp.err 400 "Código incorrecto" :=
  c4_overwrite_invalidates signToy bhashToy compareToy [u0] 100 200 "a@b.com"
    "2000-01-01" "111111" "222222" u0 u0 [] (by decide) (by decide) (by decide)
    rfl (by decide) (by decide)
    (fun a b h => by simpa [compareToy, bhashToy] using h)

/-- C5: actualizarContrasena succeeds exactly when the password equals its
confirmation, passes the strength regex, is not breached, the email matches a
stored identity, both challenge columns are present, and the elapsed time is
at most 15 minutes (strictly looser than the 10-minute verify TTL); and on
success the identity's row gets the new password hash with both challenge
columns cleared. -/
theorem c5_success_characterisation (bhashF : String → String)
    (isCompromised : Bool) (db : DB) (now : Int)
    (email password confirmPassword : String) :
    ((actualizarContrasena bhashF isCompromised db now email password confirmPassword).resp =
        Resp.ok "Contraseña actualizada exitosamente. Ya puede iniciar sesión con su nueva contraseña." ↔
      (password = confirmPassword ∧ passwordRegexTest password = true ∧
        isCompromised = false ∧
        ∃ u, db.find? (byEmail (jsToLower email)) = some u ∧
          codigoFalsy u.codigo_verificacion = false ∧
          ∃ t, u.fecha_codigo_verificacion = some t ∧ now - t ≤ 900000))
    ∧ (∀ u, db.find? (byEmail (jsToLower email)) = some u →
        (actualizarContrasena bhashF isCompromised db now email password confirmPassword).resp =
          Resp.ok "Contraseña actualizada exitosamente. Ya puede iniciar sesión con su nueva contraseña." →
        (actualizarContrasena bhashF isCompromised db now email password confirmPassword).db =
          db.map (fun v => if v.id == u.id then resetUpdate (bhashF password) now v else v)) := by
  unfold actualizarContrasena
  by_cases h1 : (password != confirmPassword) = true
  · rw [if_pos h1]
    constructor
    · constructor
      · intro hok
        simp at hok
      · rintro ⟨hpw, -⟩
        rw [hpw] at h1
        simp at h1
    · intro u hu hok
      simp at hok
  rw [if_neg h1]
  have hpw : password = confirmPassword := by simpa using h1
  by_cases h2 : (!passwordRegexTest password) = true
  · rw [if_pos h2]
    constructor
    · constructor
      · intro hok
        simp at hok
      · rintro ⟨-, hreg, -⟩
        rw [hreg] at h2
        simp at h2
    · intro u hu hok
      simp at hok
  rw [if_neg h2]
  have hreg : passwordRegexTest password = true := by simpa using h2
  by_cases h3 : isCompromised = true
  · rw [if_pos h3]
    constructor
    · constructor
      · intro hok
        simp at hok
      · rintro ⟨-, -, hc, -⟩
        rw [hc] at h3
        simp at h3
    · intro u hu hok
      simp at hok
  rw [if_neg h3]
  have hcomp : isCompromised = false := by simpa using h3
  cases hf : db.find? (byEmail (jsToLower email)) with
  | none =>
    constructor
    · constructor
      · intro hok
        simp at hok
      · rintro ⟨-, -, -, u, hu, -⟩
        simp at hu
    · intro u hu hok
      simp at hu
  | some user =>
    dsimp only
    by_cases h4 : (codigoFalsy user.codigo_verificacion ||
        (user.fecha_codigo_verificacion == none)) = true
    · rw [if_pos h4]
      constructor
      · constructor
        · intro hok
          simp at hok
        · rintro ⟨-, -, -, u, hu, hcf, t, hfc, -⟩
          have huu : user = u := by injection hu
          rw [← huu] at hcf hfc
          rw [hcf, hfc] at h4
          simp at h4
      · intro u hu hok
        simp at hok
    · rw [if_neg h4]
      cases hfc : user.fecha_codigo_verificacion with
      | none =>
        rw [hfc] at h4
        simp at h4
      | some codeDate =>
        dsimp only
        by_cases h5 : minutesOver now codeDate 15
        · rw [if_pos h5]
          have hms := (minutesOver_iff now codeDate 15).mp h5
          push_cast at hms
          constructor
          · constructor
            · intro hok
              simp at hok
            · rintro ⟨-, -, -, u, hu, -, t, hft, hb⟩
              have huu : user = u := by injection hu
              rw [← huu, hfc] at hft
              injection hft with hft
              omega
          · intro u hu hok
            simp at hok
        · rw [if_neg h5]
          have hms : now - codeDate ≤ 900000 := by
            by_contra hgt
            exact h5 ((minutesOver_iff now codeDate 15).mpr (by push_cast; omega))
          constructor
          · constructor
            · intro _
              refine ⟨hpw, hreg, hcomp, user, rfl, ?_, codeDate, hfc, hms⟩
              cases h4' : codigoFalsy user.codigo_verificacion with
              | false => rfl
              | true =>
                rw [h4'] at h4
                simp at h4
            · intro _
              rfl
          · intro u hu hok
            have huu : user = u := by injection hu
            rw [huu]

/-- C5 witness: the concrete success instance obtained from the
characterisation, with every condition discharged on the one-row database. -/
theorem c5_witness :
    (actualizarContrasena bhashToy false [uReset] 0 "a@b.com" "Abcdef1!" "Abcdef1!").resp =
      Resp.ok "Contraseña actualizada exitosamente. Ya puede iniciar sesión con su nueva contraseña." :=
  (c5_success_characterisation bhashToy false [uReset] 0 "a@b.com" "Abcdef1!"
      "Abcdef1!").1.mpr
    ⟨rfl, by decide, rfl, uReset, by decide, by decide, 0, rfl, by decide⟩

end Sututeh
